import Mathlib

/-!
Verification of the checkout/point-of-sale core of `kirppu`
(`kirppu/checkout_api.py`), as a shallow embedding in Lean 4.

Machine states, receipt rows and the checkout operations are translated
from the source; the few model methods that live outside the provided
source tree (`Receipt.calculate_total`, `remove_item_from_receipt`,
`item_state_conflict`) are modelled from the specification document and
are marked as such in their doc comments.
-/

namespace Kirppu

/-- Item lifecycle states, from `Item.STATE`
(ADVERTISED, BROUGHT, STAGED, SOLD, RETURNED, COMPENSATED, MISSING). -/
inductive ItemState where
  | advertised
  | brought
  | staged
  | sold
  | returned
  | compensated
  | missing
deriving DecidableEq, Repr, Fintype

/-- Receipt row actions, from `ReceiptItem` (ADD, REMOVE, REMOVED_LATER). -/
inductive RowAction where
  | add
  | remove
  | removedLater
deriving DecidableEq, Repr

/-- Receipt statuses, from `Receipt` (PENDING, SUSPENDED, FINISHED, ABORTED). -/
inductive ReceiptStatus where
  | pending
  | suspended
  | finished
  | aborted
deriving DecidableEq, Repr

/-- Receipt types, from `Receipt` (TYPE_PURCHASE, TYPE_COMPENSATION). -/
inductive ReceiptType where
  | purchase
  | compensation
deriving DecidableEq, Repr

/-- Typed failures raised by the API: `AjaxError` carrying RET_BAD_REQUEST,
RET_CONFLICT, RET_LOCKED, RET_AUTH_FAILED, or a raw numeric status code
(`item_checkin` raises `AjaxError(500, ...)` for a vendor without accepted
terms). -/
inductive Err where
  | badRequest
  | conflict
  | locked
  | authFailed
  | internal (code : Nat)
deriving DecidableEq, Repr

/-- `raise_if_item_not_available` (checkout_api.py lines 67-78): raises
Locked for a STAGED item, Conflict for SOLD/COMPENSATED/RETURNED, and
otherwise returns an optional informational message. -/
def raise_if_item_not_available : ItemState → Except Err (Option String)
  | .staged => .error .locked
  | .advertised => .ok (some "Item has not been brought to event.")
  | .sold => .error .conflict
  | .compensated => .error .conflict
  | .returned => .error .conflict
  | _ => .ok none

/-- The per-item view used by `item_mode_change`:
the item's lifecycle state and its vendor-hidden flag. -/
structure MItem where
  state : ItemState
  hidden : Bool
deriving DecidableEq, Repr

/-- `item_mode_change` (checkout_api.py lines 167-193): if the item's state
is in the allowed `from_` set, clear the hidden flag, log and apply the
transition; otherwise raise the item-state conflict.  The state-conflict
helper `item_state_conflict` lives in `kirppu/api/common.py`, which is not
part of the provided sources; modelled from the spec as a Conflict error. -/
def item_mode_change (item : MItem) (from_ : List ItemState) (toState : ItemState) :
    Except Err MItem :=
  if item.state ∈ from_ then
    .ok { state := toState, hidden := false }
  else
    .error .conflict

/-- A `ReceiptItem` row of a receipt: the linked item's id and the row's
action. -/
structure Row where
  item : Nat
  action : RowAction
deriving DecidableEq, Repr

/-- Modelled from the spec: `Receipt.calculate_total` lives in
`kirppu/models.py`, which is not part of the provided sources.  Spec §4.2:
"sums price of all Item rows currently linked via an Add action not yet
reversed, plus all ReceiptExtraRow values ... always re-reads current item
price at compute time".  `price` maps an item id to its current price in
minor currency units. -/
def calculate_total (rows : List Row) (extras : List Int) (price : Nat → Int) : Int :=
  ((rows.filter (fun r => r.action == .add)).map (fun r => price r.item)).sum
    + extras.sum

/-- Input state for `item_reserve`: the scanned item (id, state, box
membership), the clerk session's active receipt, the active receipt's
rows and extra rows, and the current item prices. -/
structure ReserveSt where
  itemId : Nat
  state : ItemState
  boxId : Option Nat
  sessionReceipt : Option Nat
  rows : List Row
  extras : List Int
  price : Nat → Int

/-- Successful result of `item_reserve`: new item state, the receipt's row
list after the Add row is created, and the recomputed total. -/
structure ReserveOk where
  state : ItemState
  rows : List Row
  total : Int

/-- `item_reserve` (checkout_api.py lines 838-866): rejects box items with
Conflict, requires a session receipt (else BadRequest), runs
`raise_if_item_not_available`, and for an item in ADVERTISED/BROUGHT/MISSING
stages it, creates an ADD `ReceiptItem` row, and recomputes the receipt
total. -/
def item_reserve (st : ReserveSt) : Except Err ReserveOk :=
  if st.boxId.isSome then
    .error .conflict
  else
    match st.sessionReceipt with
    | none => .error .badRequest
    | some _ =>
      match raise_if_item_not_available st.state with
      | .error e => .error e
      | .ok _message =>
        if st.state = .advertised ∨ st.state = .brought ∨ st.state = .missing then
          let rows' := st.rows ++ [⟨st.itemId, .add⟩]
          .ok ⟨.staged, rows', calculate_total rows' st.extras st.price⟩
        else
          .error .conflict

/-- Input state for `receipt_abort`: the receipt (status, rows, extra-row
values), the item states, and current item prices.  The session/id match
performed by `_get_active_receipt` is assumed resolved. -/
structure AbortSt where
  status : ReceiptStatus
  rows : List Row
  extras : List Int
  itemState : Nat → ItemState
  price : Nat → Int

/-- Result of `receipt_abort`: receipt status, its final row set, the item
states after the reversion pass, the recomputed total, and whether an end
time was stamped. -/
structure AbortOut where
  status : ReceiptStatus
  rows : List Row
  itemState : Nat → ItemState
  total : Int
  ended : Bool

/-- `receipt_abort` (checkout_api.py lines 921-950): requires status in
{PENDING, SUSPENDED} (via `_get_active_receipt`); for every ADD row appends
a REMOVE row and reverts the underlying item to BROUGHT if it is not
already; then reclassifies the original ADD rows as REMOVED_LATER;
recomputes the total from the final row set; sets status ABORTED and
stamps the end time. -/
def receipt_abort (st : AbortSt) : Except Err AbortOut :=
  if st.status = .pending ∨ st.status = .suspended then
    let added := st.rows.filter (fun r => r.action == .add)
    let rows1 := st.rows ++ added.map (fun r => ⟨r.item, .remove⟩)
    let items1 : Nat → ItemState := fun i =>
      if added.any (fun r => r.item == i) then .brought else st.itemState i
    let rows2 := rows1.map (fun r =>
      if r.action == .add then ⟨r.item, .removedLater⟩ else r)
    .ok ⟨.aborted, rows2, items1, calculate_total rows2 st.extras st.price, true⟩
  else
    .error .conflict

/-- A receipt as seen by `receipt_start`: owning clerk, status, type.
Modelled from the spec: the `Receipt` model (kirppu/models.py) is not part
of the provided sources; a freshly created receipt is a PENDING PURCHASE
receipt (spec §3, §4.2). -/
structure Receipt0 where
  clerk : Nat
  status : ReceiptStatus
  rtype : ReceiptType
deriving DecidableEq, Repr

/-- State consulted by `receipt_start`: the store of receipts and the
session's active-receipt slot. -/
structure StartSt where
  receipts : List Receipt0
  sessionReceipt : Option Nat
deriving DecidableEq, Repr

/-- `receipt_start` (checkout_api.py lines 818-835): Conflict if the
session already has an active receipt; Conflict if the clerk already has a
PENDING PURCHASE receipt; otherwise creates a new pending purchase receipt
and stores it in the session. -/
def receipt_start (clerk : Nat) (st : StartSt) : Except Err (StartSt × Receipt0) :=
  if st.sessionReceipt.isSome then
    .error .conflict
  else if 0 < (st.receipts.filter (fun r =>
      r.clerk == clerk && r.status == .pending && r.rtype == .purchase)).length then
    .error .conflict
  else
    let r : Receipt0 := ⟨clerk, .pending, .purchase⟩
    .ok (⟨st.receipts ++ [r], some st.receipts.length⟩, r)

/-- A box member item as seen by the box branch of `item_checkout`. -/
structure BItem where
  id : Nat
  state : ItemState
deriving DecidableEq, Repr

/-- A box: the id of its representative item and its member items. -/
structure BoxSt where
  repId : Nat
  members : List BItem
deriving DecidableEq, Repr

/-- Response of the box branch of `item_checkout`: the member items after
the bulk update and the reported counts. -/
structure BoxOut where
  members : List BItem
  item_count : Nat
  returnable_count : Nat
  returned_count : Nat
  changed : Nat
deriving DecidableEq, Repr

/-- Box branch of `item_checkout` (checkout_api.py lines 598-642) for a
scanned item belonging to `box`: Conflict unless the scanned item is the
box's representative; otherwise every member in BROUGHT state is bulk
updated to RETURNED, and the response reports the member count and the
post-update BROUGHT (returnable) and RETURNED counts.  `changed` re-runs
the state=BROUGHT member query after the update, as the source does. -/
def item_checkout_box (box : BoxSt) (scannedId : Nat) : Except Err BoxOut :=
  if scannedId ≠ box.repId then
    .error .conflict
  else
    let members' := box.members.map (fun m =>
      if m.state == .brought then ⟨m.id, .returned⟩ else m)
    .ok { members := members'
          item_count := members'.length
          returnable_count := (members'.filter (fun m => m.state == .brought)).length
          returned_count := (members'.filter (fun m => m.state == .returned)).length
          changed := (members'.filter (fun m => m.state == .brought)).length }

/-- Input of `item_checkin`: whether the item's vendor has accepted the
terms, the item's state, the containing box's item count (`none` for a
non-box item), the event's optional brought-item cap, and the vendor's
current count of BROUGHT items. -/
structure CheckinSt where
  termsAccepted : Bool
  state : ItemState
  boxItemCount : Option Nat
  maxBroughtItems : Option Nat
  broughtCount : Nat
deriving DecidableEq, Repr

/-- Successful result of `item_checkin`: either the two-step box protocol
answer (box metadata returned with RET_ACCEPTED, no state transition), or
a completed single-item check-in carrying the optional items-left count. -/
inductive CheckinOk where
  | acceptedBox
  | done (leftCount : Option Nat)
deriving DecidableEq, Repr

/-- `item_checkin` (checkout_api.py lines 558-595): raises
`AjaxError(500, ...)` if the vendor has not accepted the terms; requires
state ADVERTISED (else the item-state Conflict); when the event caps
brought items, fails with Conflict if the vendor's BROUGHT count plus the
checked-in count (box size for a box item, else 1) exceeds the cap, else
computes the items-left count; a box item then gets the RET_ACCEPTED
two-step answer, and a single item transitions ADVERTISED → BROUGHT via
`item_mode_change`. -/
def item_checkin (st : CheckinSt) : Except Err CheckinOk :=
  if !st.termsAccepted then
    .error (.internal 500)
  else if st.state ≠ .advertised then
    .error .conflict
  else
    let cnt := st.boxItemCount.getD 1
    match st.maxBroughtItems with
    | some mx =>
      if st.broughtCount + cnt > mx then
        .error .conflict
      else if st.boxItemCount.isSome then
        .ok .acceptedBox
      else
        .ok (.done (some (mx - st.broughtCount - cnt)))
    | none =>
      if st.boxItemCount.isSome then
        .ok .acceptedBox
      else
        .ok (.done none)

/-- The item as seen by `item_edit`: state, price (minor units), box
membership. -/
structure EItem where
  state : ItemState
  price : Int
  boxId : Option Nat
deriving DecidableEq, Repr

/-- An ADD/REMOVE/REMOVED_LATER `ReceiptItem` row referencing the edited
item, tagged by the owning receipt. -/
structure ERow where
  receipt : Nat
  action : RowAction
deriving DecidableEq, Repr

/-- The states in which `item_edit` allows a price change. -/
def price_editable_states : List ItemState := [.advertised, .brought]

/-- The unsold target set of `item_edit`. -/
def unsold_states : List ItemState := [.advertised, .brought, .missing, .returned]

/-- Modelled from the spec: `remove_item_from_receipt` lives in
`kirppu/forms.py`, which is not part of the provided sources.  Spec §4.1:
removal "finds the Add row for this item on the ... receipt, marks it
Remove"; applied by `item_edit` to every receipt holding the item via an
ADD row. -/
def remove_item_rows (rows : List ERow) : List ERow :=
  rows.map (fun r => if r.action == .add then ⟨r.receipt, .remove⟩ else r)

/-- `item_edit` (checkout_api.py lines 383-443): Conflict for box items; a
price change with neither current nor requested state price-editable is
BadRequest; a state change is allowed only from {SOLD, COMPENSATED}
(states neither unsold nor STAGED) to an unsold state, removing the item
from every receipt holding it via an ADD row; any other requested state
change is BadRequest; finally the item's state and price are written. -/
def item_edit (item : EItem) (rows : List ERow) (price : Int) (target : ItemState) :
    Except Err (EItem × List ERow) :=
  if item.boxId.isSome then
    .error .conflict
  else if price ≠ item.price ∧
      item.state ∉ price_editable_states ∧ target ∉ price_editable_states then
    .error .badRequest
  else if item.state ≠ target then
    if item.state ∉ unsold_states ∧ item.state ≠ .staged ∧ target ∈ unsold_states then
      .ok (⟨target, price, item.boxId⟩, remove_item_rows rows)
    else
      .error .badRequest
  else
    .ok (⟨target, price, item.boxId⟩, rows)

/-- States of a `TemporaryAccessPermit` (STATE_ACTIVE, STATE_INVALIDATED). -/
inductive PermitState where
  | active
  | invalidated
deriving DecidableEq, Repr

/-- A temporary access permit: owning vendor and state. -/
structure Permit where
  vendor : Nat
  state : PermitState
deriving DecidableEq, Repr

/-- `TemporaryAccessPermitLog` actions (ACTION_INVALIDATE, ACTION_ADD). -/
inductive PermitLogAction where
  | invalidate
  | addPermit
deriving DecidableEq, Repr

/-- A `TemporaryAccessPermitLog` record: the affected vendor and action. -/
structure PermitLog where
  vendor : Nat
  action : PermitLogAction
deriving DecidableEq, Repr

/-- The candidate short codes tried by `vendor_token_create`: 60 draws of
`random.randint(10^(digits-1), 10^digits - 1)`, with the randomness
injected as an oracle `rand` (draw `i` is `rand i` reduced into the
inclusive range). -/
def tokenAttempts (digits : Nat) (rand : Nat → Nat) : List Nat :=
  (List.range 60).map (fun i => 10 ^ (digits - 1) + rand i % (9 * 10 ^ (digits - 1)))

/-- `vendor_token_create` (checkout_api.py lines 776-815): invalidates
every existing permit of the vendor, logging an Invalidate record for
each; then tries up to 60 random short codes, keeping the first one whose
creation does not collide with an existing unique code (`collides`); on
success an Add log record is written and the code returned; if every
attempt collides the call fails with Conflict ("Gave up code
generation."). -/
def vendor_token_create (permits : List Permit) (vendor : Nat) (digits : Nat)
    (rand : Nat → Nat) (collides : Nat → Bool) :
    Except Err (List Permit × List PermitLog × Nat) :=
  let permits' := permits.map (fun p =>
    if p.vendor == vendor then ⟨p.vendor, .invalidated⟩ else p)
  let invLogs := (permits.filter (fun p => p.vendor == vendor)).map
    (fun _ => PermitLog.mk vendor .invalidate)
  match (tokenAttempts digits rand).find? (fun c => !collides c) with
  | some c => .ok (permits', invLogs ++ [⟨vendor, .addPermit⟩], c)
  | none => .error .conflict

/-!
## Per-item transition system

The state-machine claims quantify over arbitrary sequences of core
operations.  We project the system onto a single (non-box) item: its
lifecycle state together with whether it currently has an active ADD row
on a PENDING receipt, and of which receipt type.  Each core operation of
`checkout_api.py` becomes a step on this view; operations whose guards
fail step to `none`, and the bulk receipt operations act as the identity
on an item that has no active ADD row on the receipt being closed.
-/

/-- The kind of PENDING receipt holding the item via an active ADD row:
a purchase receipt (`item_reserve`) or a compensation receipt
(`item_compensate`). -/
inductive AttachKind where
  | purchase
  | compensation
deriving DecidableEq, Repr, Fintype

/-- Single-item projection of the system state: the item's lifecycle state
and its active ADD-row attachment, if any. -/
structure ItemView where
  state : ItemState
  attach : Option AttachKind
deriving DecidableEq, Repr, Fintype

/-- The core operations of §4.1/§4.2, projected onto one item. -/
inductive Op where
  | checkin
  | checkoutSingle
  | checkoutBox
  | reserve
  | release
  | edit (target : ItemState)
  | compensate
  | receiptFinish
  | receiptAbort
  | compensateEnd
deriving DecidableEq, Repr, Fintype

/-- One core operation applied to the single-item view, following
`checkout_api.py`:

* `checkin`: `item_mode_change(ADVERTISED → BROUGHT)` (lines 558-595);
* `checkoutSingle`: `item_mode_change((BROUGHT, ADVERTISED) → RETURNED)`
  (lines 598-642);
* `checkoutBox`: the bulk branch of `item_checkout` updates exactly the
  BROUGHT members of the box to RETURNED, leaving others untouched;
* `reserve`: `item_reserve` (lines 838-866) stages an
  ADVERTISED/BROUGHT/MISSING item and creates an ADD row on the pending
  purchase receipt;
* `release`: `item_release` (lines 869-880); the row reversal
  `remove_item_from_receipt` is in `kirppu/forms.py`, outside the
  provided sources, modelled from spec §4.1: marks the ADD row of the
  active receipt REMOVE and restores the item to BROUGHT;
* `edit`: the state-changing part of `item_edit` (lines 383-443), which
  also removes the item from every receipt holding it;
* `compensate`: `item_compensate` (lines 671-685):
  `item_mode_change(SOLD → COMPENSATED)` plus an ADD row on the pending
  compensation receipt;
* `receiptFinish`: `receipt_finish` (lines 905-918) bulk-updates every
  item held via an ADD row of the finished pending purchase receipt to
  SOLD; an item not held by it is untouched;
* `receiptAbort`: `receipt_abort` (lines 921-950) reverts every item held
  via an ADD row to BROUGHT and reclassifies the rows;
* `compensateEnd`: `item_compensate_end` (lines 688-718) finishes the
  pending compensation receipt without touching item states. -/
def stepItem : Op → ItemView → Option ItemView
  | .checkin, v =>
    if v.state = .advertised then some ⟨.brought, v.attach⟩ else none
  | .checkoutSingle, v =>
    if v.state = .brought ∨ v.state = .advertised then
      some ⟨.returned, v.attach⟩
    else none
  | .checkoutBox, v =>
    some ⟨if v.state = .brought then .returned else v.state, v.attach⟩
  | .reserve, v =>
    if v.state = .advertised ∨ v.state = .brought ∨ v.state = .missing then
      some ⟨.staged, some .purchase⟩
    else none
  | .release, v =>
    if v.attach = some .purchase then some ⟨.brought, none⟩ else none
  | .edit target, v =>
    if v.state = target then some v
    else if v.state ∉ unsold_states ∧ v.state ≠ .staged ∧ target ∈ unsold_states then
      some ⟨target, none⟩
    else none
  | .compensate, v =>
    if v.state = .sold then some ⟨.compensated, some .compensation⟩ else none
  | .receiptFinish, v =>
    if v.attach = some .purchase then some ⟨.sold, none⟩ else some v
  | .receiptAbort, v =>
    if v.attach = some .purchase then some ⟨.brought, none⟩ else some v
  | .compensateEnd, v =>
    if v.attach = some .compensation then some ⟨v.state, none⟩ else some v

/-- Run a sequence of core operations on the single-item view; `none` as
soon as one operation fails. -/
def runOps : List Op → ItemView → Option ItemView
  | [], v => some v
  | op :: ops, v =>
    match stepItem op v with
    | none => none
    | some v' => runOps ops v'

/-- The attachment invariant: an item held via an active ADD row on a
pending purchase receipt is STAGED (only `item_reserve` creates such a
row, and every operation that would change the item's state either clears
the row or is rejected while the item is STAGED). -/
def AttachInv (v : ItemView) : Prop := v.attach = some .purchase → v.state = .staged

instance (v : ItemView) : Decidable (AttachInv v) := by
  unfold AttachInv; infer_instance

/-!
## Theorems
-/

/-- C10: every successful item state transition performed through the
shared transition helper `item_mode_change` (used by check-in, single-item
check-out, and compensate) sets the item's hidden flag to False, so a
vendor-hidden item becomes visible again as soon as any of these
operations transitions its state. -/
theorem item_mode_change_clears_hidden (item : MItem) (from_ : List ItemState)
    (toState : ItemState) (out : MItem)
    (h : item_mode_change item from_ toState = .ok out) :
    out.hidden = false ∧ out.state = toState := by
  unfold item_mode_change at h
  split at h
  · injection h with h
    subst h
    exact ⟨rfl, rfl⟩
  · exact absurd h (by simp)

theorem item_mode_change_clears_hidden_witness :
    (MItem.mk ItemState.brought false).hidden = false ∧
    (MItem.mk ItemState.brought false).state = ItemState.brought :=
  item_mode_change_clears_hidden ⟨.advertised, true⟩ [.advertised] .brought
    ⟨.brought, false⟩ rfl

/-- C4: for a non-box item scanned while a receipt is active, `item_reserve`
fails with Locked exactly when the item is STAGED, fails with Conflict when
it is SOLD, COMPENSATED or RETURNED, and succeeds when it is ADVERTISED,
BROUGHT or MISSING — staging the item, creating an ADD row on the active
receipt, and recomputing the receipt total. -/
theorem item_reserve_spec (st : ReserveSt) (hb : st.boxId = none)
    (hr : st.sessionReceipt.isSome = true) :
    (item_reserve st = .error .locked ↔ st.state = .staged) ∧
    ((st.state = .sold ∨ st.state = .compensated ∨ st.state = .returned) →
      item_reserve st = .error .conflict) ∧
    ((st.state = .advertised ∨ st.state = .brought ∨ st.state = .missing) →
      item_reserve st =
        .ok ⟨.staged, st.rows ++ [⟨st.itemId, .add⟩],
             calculate_total (st.rows ++ [⟨st.itemId, .add⟩]) st.extras st.price⟩) := by
  obtain ⟨rid, hrid⟩ := Option.isSome_iff_exists.mp hr
  unfold item_reserve
  rw [hb, hrid]
  cases hst : st.state <;> simp [raise_if_item_not_available]

theorem item_reserve_spec_witness :
    item_reserve ⟨1, .brought, none, some 0, [], [], fun _ => 500⟩ =
      .ok ⟨.staged, [⟨1, .add⟩], calculate_total [⟨1, .add⟩] [] (fun _ => 500)⟩ :=
  (item_reserve_spec ⟨1, .brought, none, some 0, [], [], fun _ => 500⟩ rfl rfl).2.2
    (Or.inr (Or.inl rfl))

/-- C3 (counterexample): the claim says editing a RETURNED item to BROUGHT
succeeds, but `item_edit` rejects it with BadRequest: RETURNED belongs to
`unsold_states`, so the guard `item.state not in unsold_states` fails and
the state change falls into the BadRequest branch. -/
theorem item_edit_returned_cx :
    item_edit ⟨.returned, 500, none⟩ [] 500 .brought = .error .badRequest ∧
    ∀ r, item_edit ⟨.returned, 500, none⟩ [] 500 .brought ≠ .ok r := by
  constructor
  · rfl
  · intro r h
    rw [show item_edit ⟨.returned, 500, none⟩ [] 500 .brought = .error .badRequest from rfl] at h
    exact absurd h (by simp)

/-- C3 (amended): for every non-box item whose current state is SOLD or
COMPENSATED, and every requested target state in
{ADVERTISED, BROUGHT, MISSING, RETURNED} (price passed unchanged),
`item_edit` succeeds in applying the state transition and marks every ADD
row of a receipt holding the item as REMOVE; a RETURNED item cannot be
edited to a different state (see the counterexample). -/
theorem item_edit_sold_compensated_spec (item : EItem) (rows : List ERow)
    (target : ItemState) (hb : item.boxId = none)
    (hs : item.state = .sold ∨ item.state = .compensated)
    (htgt : target ∈ unsold_states) :
    item_edit item rows item.price target =
      .ok (⟨target, item.price, none⟩, remove_item_rows rows) ∧
    (∀ r ∈ remove_item_rows rows, r.action ≠ .add) := by
  constructor
  · have hne : item.state ≠ target := by
      rcases hs with h | h <;> rw [h] <;> (intro hc; rw [← hc] at htgt; simp [unsold_states] at htgt)
    unfold item_edit
    rw [hb]
    simp only [Option.isSome_none, Bool.false_eq_true, if_false]
    rw [if_neg (by simp), if_pos hne, if_pos ?_]
    refine ⟨?_, ?_, htgt⟩
    · rcases hs with h | h <;> simp [h, unsold_states]
    · rcases hs with h | h <;> simp [h]
  · intro r hr
    unfold remove_item_rows at hr
    obtain ⟨a, _, ha⟩ := List.mem_map.mp hr
    by_cases h : a.action = .add
    · simp [h] at ha
      rw [← ha]
      simp
    · simp [h] at ha
      rw [← ha]
      simpa using h

theorem item_edit_sold_compensated_spec_witness :
    item_edit ⟨.sold, 500, none⟩ [⟨4, .add⟩] 500 .brought =
      .ok (⟨.brought, 500, none⟩, remove_item_rows [⟨4, .add⟩]) ∧
    (∀ r ∈ remove_item_rows [(⟨4, .add⟩ : ERow)], r.action ≠ .add) :=
  item_edit_sold_compensated_spec ⟨.sold, 500, none⟩ [⟨4, .add⟩] .brought rfl
    (Or.inl rfl) (by decide)

/-- C8 (counterexample): a check-in for an item whose vendor has not
accepted the terms fails with `AjaxError(500, ...)` — a typed failure that
is none of the four kinds BadRequest, Conflict, Locked, AuthFailed claimed
to be exhaustive. -/
theorem item_checkin_error_kinds_cx :
    item_checkin ⟨false, .advertised, none, none, 0⟩ = .error (.internal 500) ∧
    Err.internal 500 ≠ .badRequest ∧ Err.internal 500 ≠ .conflict ∧
    Err.internal 500 ≠ .locked ∧ Err.internal 500 ≠ .authFailed := by
  exact ⟨rfl, by decide⟩

/-- C8 (amended): every failure of `item_checkin` carries exactly one typed
error, which is one of BadRequest, Conflict, Locked, AuthFailed, or the
internal error 500 raised for a vendor without accepted terms; for every
input, check-in either succeeds with a value or fails with one of these. -/
theorem item_checkin_error_kinds (st : CheckinSt) :
    (∃ okv, item_checkin st = .ok okv) ∨
    (∃ e, item_checkin st = .error e ∧
      (e = .badRequest ∨ e = .conflict ∨ e = .locked ∨ e = .authFailed ∨
       e = .internal 500)) := by
  obtain ⟨terms, state, bic, mbi, bc⟩ := st
  cases terms with
  | false => exact Or.inr ⟨.internal 500, rfl, by simp⟩
  | true =>
    by_cases hs : state = ItemState.advertised
    · subst hs
      cases mbi with
      | none =>
        cases bic with
        | none => exact Or.inl ⟨.done none, rfl⟩
        | some n => exact Or.inl ⟨.acceptedBox, rfl⟩
      | some mx =>
        cases bic with
        | none =>
          by_cases hc : bc + 1 > mx
          · exact Or.inr ⟨.conflict, by simp [item_checkin, hc], by simp⟩
          · exact Or.inl ⟨.done (some (mx - bc - 1)), by simp [item_checkin, hc]⟩
        | some n =>
          by_cases hc : bc + n > mx
          · exact Or.inr ⟨.conflict, by simp [item_checkin, hc], by simp⟩
          · exact Or.inl ⟨.acceptedBox, by simp [item_checkin, hc]⟩
    · exact Or.inr ⟨.conflict, by simp [item_checkin, hs], by simp⟩

/-- C7: for a vendor with accepted terms, check-in requires the item to be
ADVERTISED and fails with Conflict otherwise; with a configured
`max_brought_items` cap it fails with Conflict whenever the vendor's
BROUGHT count plus the checked-in count (box size for a box item, else 1)
exceeds the cap; and a successful capped single-item check-in reports
`max_brought_items - brought_count - 1` items left. -/
theorem item_checkin_spec (st : CheckinSt) (ht : st.termsAccepted = true) :
    (st.state ≠ .advertised → item_checkin st = .error .conflict) ∧
    (∀ mx, st.maxBroughtItems = some mx →
      st.broughtCount + st.boxItemCount.getD 1 > mx →
      item_checkin st = .error .conflict) ∧
    (∀ mx, st.maxBroughtItems = some mx → st.state = .advertised →
      st.boxItemCount = none → st.broughtCount + 1 ≤ mx →
      item_checkin st = .ok (.done (some (mx - st.broughtCount - 1)))) := by
  refine ⟨?_, ?_, ?_⟩
  · intro hs
    simp [item_checkin, ht, hs]
  · intro mx hmx hc
    by_cases hs : st.state = ItemState.advertised
    · simp [item_checkin, ht, hs, hmx, hc]
    · simp [item_checkin, ht, hs]
  · intro mx hmx hs hbic hc
    simp [item_checkin, ht, hs, hmx, hbic, Nat.not_lt.mpr hc]

theorem item_checkin_spec_witness :
    item_checkin ⟨true, .advertised, none, some 5, 3⟩ = .ok (.done (some 1)) :=
  (item_checkin_spec ⟨true, .advertised, none, some 5, 3⟩ rfl).2.2 5 rfl rfl rfl
    (by decide)

/-- C5: if a clerk already has a PENDING PURCHASE receipt then
`receipt_start` for that clerk fails with Conflict (so no state is
created); and after any successful `receipt_start`, a further
`receipt_start` for the same clerk fails with Conflict even on a counter
with an empty session — so two start calls, serialized by the shared
transaction, can never create two pending purchase receipts for one
clerk. -/
theorem receipt_start_no_duplicate (clerk : Nat) (st : StartSt) :
    ((∃ r ∈ st.receipts, r.clerk = clerk ∧ r.status = .pending ∧ r.rtype = .purchase) →
      receipt_start clerk st = .error .conflict) ∧
    (∀ st' r, receipt_start clerk st = .ok (st', r) →
      receipt_start clerk ⟨st'.receipts, none⟩ = .error .conflict) := by
  constructor
  · rintro ⟨r, hr, h1, h2, h3⟩
    unfold receipt_start
    split
    · rfl
    · have hmem : r ∈ st.receipts.filter (fun r =>
          r.clerk == clerk && r.status == ReceiptStatus.pending &&
          r.rtype == ReceiptType.purchase) :=
        List.mem_filter.mpr ⟨hr, by simp [h1, h2, h3]⟩
      rw [if_pos (List.length_pos_of_mem hmem)]
  · intro st' r h
    unfold receipt_start at h
    split at h
    · exact absurd h (by simp)
    · split at h
      · exact absurd h (by simp)
      · rw [Except.ok.injEq, Prod.mk.injEq] at h
        obtain ⟨h1, -⟩ := h
        unfold receipt_start
        rw [if_neg (by simp)]
        have hmem : (⟨clerk, .pending, .purchase⟩ : Receipt0) ∈
            (StartSt.mk st'.receipts none).receipts.filter (fun r =>
              r.clerk == clerk && r.status == ReceiptStatus.pending &&
              r.rtype == ReceiptType.purchase) := by
          apply List.mem_filter.mpr
          refine ⟨?_, by simp⟩
          rw [← h1]
          exact List.mem_append_right _ (List.mem_singleton.mpr rfl)
        rw [if_pos (List.length_pos_of_mem hmem)]

theorem receipt_start_no_duplicate_witness :
    receipt_start 7 ⟨[⟨7, .pending, .purchase⟩], none⟩ = .error .conflict :=
  (receipt_start_no_duplicate 7 ⟨[⟨7, .pending, .purchase⟩], none⟩).1
    ⟨⟨7, .pending, .purchase⟩, by simp, rfl, rfl, rfl⟩

/-- C6: `item_checkout` called with the box's representative item's code
bulk-moves every member in BROUGHT state to RETURNED in one call (members
in other states are untouched, positions and ids preserved), and reports
`item_count`, `returnable_count` and `returned_count` computed from the
post-call member states; called with a non-representative code of the box
it fails with Conflict. -/
theorem item_checkout_box_spec (box : BoxSt) (scannedId : Nat) :
    (scannedId = box.repId →
      ∃ out, item_checkout_box box scannedId = .ok out ∧
        out.members.length = box.members.length ∧
        (∀ (i : Nat) (m : BItem), box.members[i]? = some m →
          out.members[i]? =
            some (if m.state = .brought then ⟨m.id, .returned⟩ else m)) ∧
        out.item_count = out.members.length ∧
        out.returnable_count =
          (out.members.filter (fun m => m.state == .brought)).length ∧
        out.returned_count =
          (out.members.filter (fun m => m.state == .returned)).length) ∧
    (scannedId ≠ box.repId → item_checkout_box box scannedId = .error .conflict) := by
  constructor
  · intro he
    have hrun : item_checkout_box box scannedId =
        .ok { members := box.members.map (fun m =>
                if m.state == .brought then ⟨m.id, .returned⟩ else m)
              item_count := (box.members.map (fun m =>
                if m.state == .brought then ⟨m.id, .returned⟩ else m)).length
              returnable_count := ((box.members.map (fun m =>
                if m.state == .brought then ⟨m.id, .returned⟩ else m)).filter
                  (fun m => m.state == .brought)).length
              returned_count := ((box.members.map (fun m =>
                if m.state == .brought then ⟨m.id, .returned⟩ else m)).filter
                  (fun m => m.state == .returned)).length
              changed := ((box.members.map (fun m =>
                if m.state == .brought then ⟨m.id, .returned⟩ else m)).filter
                  (fun m => m.state == .brought)).length } := by
      unfold item_checkout_box
      rw [if_neg (by simp [he])]
    refine ⟨_, hrun, by simp, ?_, rfl, rfl, rfl⟩
    intro i m hm
    rw [List.getElem?_map, hm]
    simp only [Option.map_some']
    congr 1
    by_cases hb : m.state = ItemState.brought <;> simp [hb]
  · intro hne
    unfold item_checkout_box
    rw [if_pos hne]

theorem item_checkout_box_spec_witness :
    ∃ out, item_checkout_box ⟨10, [⟨10, .brought⟩, ⟨11, .brought⟩, ⟨12, .sold⟩]⟩ 10 =
        .ok out ∧
      out.members.length = ([⟨10, .brought⟩, ⟨11, .brought⟩, ⟨12, .sold⟩] :
        List BItem).length ∧
      (∀ (i : Nat) (m : BItem),
        ([⟨10, .brought⟩, ⟨11, .brought⟩, ⟨12, .sold⟩] : List BItem)[i]? = some m →
        out.members[i]? = some (if m.state = .brought then ⟨m.id, .returned⟩ else m)) ∧
      out.item_count = out.members.length ∧
      out.returnable_count = (out.members.filter (fun m => m.state == .brought)).length ∧
      out.returned_count = (out.members.filter (fun m => m.state == .returned)).length :=
  (item_checkout_box_spec ⟨10, [⟨10, .brought⟩, ⟨11, .brought⟩, ⟨12, .sold⟩]⟩ 10).1 rfl

/-- C9: `vendor_token_create` first invalidates every existing permit of
the vendor, logging one Invalidate record per permit, then draws fresh
short codes of the configured digit length, retrying on uniqueness
collision for at most 60 attempts; if every attempt collides it fails
with Conflict ("gave up"), otherwise it returns the first generated
non-colliding code. -/
theorem vendor_token_create_spec (permits : List Permit) (vendor digits : Nat)
    (rand : Nat → Nat) (collides : Nat → Bool) (hd : 1 ≤ digits) :
    ((∀ c ∈ tokenAttempts digits rand, collides c = true) →
      vendor_token_create permits vendor digits rand collides = .error .conflict) ∧
    (∀ ps ls c, vendor_token_create permits vendor digits rand collides = .ok (ps, ls, c) →
      collides c = false ∧
      c ∈ tokenAttempts digits rand ∧
      10 ^ (digits - 1) ≤ c ∧ c < 10 ^ digits ∧
      (∀ p ∈ ps, p.vendor = vendor → p.state = .invalidated) ∧
      (ls.filter (fun l => l.action == .invalidate)).length =
        (permits.filter (fun p => p.vendor == vendor)).length) := by
  constructor
  · intro hall
    have hnone : (tokenAttempts digits rand).find? (fun c => !collides c) = none :=
      List.find?_eq_none.mpr (fun x hx => by simp [hall x hx])
    unfold vendor_token_create
    rw [hnone]
  · intro ps ls c h
    unfold vendor_token_create at h
    cases hf : (tokenAttempts digits rand).find? (fun c => !collides c) with
    | none =>
      rw [hf] at h
      exact absurd h (by simp)
    | some c' =>
      rw [hf] at h
      rw [Except.ok.injEq, Prod.mk.injEq, Prod.mk.injEq] at h
      obtain ⟨h1, h2, h3⟩ := h
      subst h1
      subst h2
      subst h3
      have hcf : collides c' = false := by
        have := List.find?_some hf
        simpa using this
      have hmem : c' ∈ tokenAttempts digits rand := List.mem_of_find?_eq_some hf
      obtain ⟨i, -, hi⟩ := List.mem_map.mp hmem
      refine ⟨hcf, hmem, ?_, ?_, ?_, ?_⟩
      · rw [← hi]; exact Nat.le_add_right _ _
      · rw [← hi]
        have hsum : 10 ^ (digits - 1) + 9 * 10 ^ (digits - 1) = 10 ^ digits := by
          have : 10 ^ (digits - 1) + 9 * 10 ^ (digits - 1) = 10 ^ (digits - 1) * 10 := by
            ring
          rw [this, ← pow_succ, Nat.sub_add_cancel hd]
        calc 10 ^ (digits - 1) + rand i % (9 * 10 ^ (digits - 1))
            < 10 ^ (digits - 1) + 9 * 10 ^ (digits - 1) := by
              have hpos : 0 < 9 * 10 ^ (digits - 1) := by positivity
              exact Nat.add_lt_add_left (Nat.mod_lt _ hpos) _
          _ = 10 ^ digits := hsum
      · intro p hp hpv
        obtain ⟨q, hq, hfq⟩ := List.mem_map.mp hp
        by_cases hv : q.vendor = vendor
        · rw [← hfq]
          simp [hv]
        · exfalso
          rw [← hfq] at hpv
          simp [hv] at hpv
      · rw [List.filter_append]
        simp [List.filter_map, Function.comp_def]

theorem vendor_token_create_spec_witness :
    (fun _ => false : Nat → Bool) 1000 = false ∧
    1000 ∈ tokenAttempts 4 (fun _ => 0) ∧
    10 ^ (4 - 1) ≤ 1000 ∧ 1000 < 10 ^ 4 ∧
    (∀ p ∈ [Permit.mk 3 .invalidated], p.vendor = 3 → p.state = .invalidated) ∧
    (([PermitLog.mk 3 .invalidate, PermitLog.mk 3 .addPermit].filter
        (fun l => l.action == .invalidate)).length =
      ([Permit.mk 3 .active].filter (fun p => p.vendor == 3)).length) :=
  (vendor_token_create_spec [Permit.mk 3 .active] 3 4 (fun _ => 0) (fun _ => false)
      (by decide)).2
    [Permit.mk 3 .invalidated] [PermitLog.mk 3 .invalidate, PermitLog.mk 3 .addPermit]
    1000 rfl

/-- C2: aborting a PENDING receipt holding N items via active ADD rows
(1) sets every one of those items' state to BROUGHT, (2) leaves the row
set with exactly N REMOVE rows and the N original ADD rows reclassified
as REMOVED_LATER (2N rows in total), (3) recomputes the total to the sum
of the remaining extra rows only (0 if none), and (4) sets the status to
ABORTED with an end time. -/
theorem receipt_abort_spec (st : AbortSt) (hp : st.status = .pending)
    (hall : ∀ r ∈ st.rows, r.action = .add) :
    ∃ out, receipt_abort st = .ok out ∧
      out.status = .aborted ∧ out.ended = true ∧
      (∀ r ∈ st.rows, out.itemState r.item = .brought) ∧
      (out.rows.filter (fun r => r.action == .remove)).length = st.rows.length ∧
      (out.rows.filter (fun r => r.action == .removedLater)).length = st.rows.length ∧
      out.rows.length = 2 * st.rows.length ∧
      out.total = st.extras.sum := by
  have hfilter : st.rows.filter (fun r => r.action == .add) = st.rows :=
    List.filter_eq_self.mpr (fun a ha => by simp [hall a ha])
  have hrows2 :
      ((st.rows ++ (st.rows.filter (fun r => r.action == .add)).map
          (fun r => (⟨r.item, .remove⟩ : Row))).map
        (fun r => if r.action == .add then (⟨r.item, .removedLater⟩ : Row) else r)) =
      st.rows.map (fun r => (⟨r.item, .removedLater⟩ : Row)) ++
        st.rows.map (fun r => (⟨r.item, .remove⟩ : Row)) := by
    rw [hfilter, List.map_append, List.map_map]
    congr 1
    exact List.map_congr_left (fun a ha => by simp [hall a ha])
  unfold receipt_abort
  rw [if_pos (Or.inl hp)]
  refine ⟨_, rfl, rfl, rfl, ?_, ?_, ?_, ?_, ?_⟩
  · intro r hr
    show (if (st.rows.filter (fun r => r.action == .add)).any
        (fun x => x.item == r.item) then ItemState.brought else st.itemState r.item)
      = ItemState.brought
    rw [hfilter, if_pos]
    rw [List.any_eq_true]
    exact ⟨r, hr, by simp⟩
  · show (((st.rows ++ _).map _).filter _).length = _
    rw [hrows2, List.filter_append]
    simp [List.filter_map, Function.comp_def]
  · show (((st.rows ++ _).map _).filter _).length = _
    rw [hrows2, List.filter_append]
    simp [List.filter_map, Function.comp_def]
  · show ((st.rows ++ _).map _).length = _
    rw [hrows2]
    simp
    omega
  · show calculate_total _ st.extras st.price = _
    unfold calculate_total
    rw [hrows2, List.filter_append]
    simp [List.filter_map, Function.comp_def,
      show (RowAction.removedLater == RowAction.add) = false from rfl,
      show (RowAction.remove == RowAction.add) = false from rfl]

theorem receipt_abort_spec_witness :
    ∃ out, receipt_abort ⟨.pending, [⟨1, .add⟩, ⟨2, .add⟩], [], fun _ => .staged,
        fun _ => 100⟩ = .ok out ∧
      out.status = .aborted ∧ out.ended = true ∧
      (∀ r ∈ [Row.mk 1 .add, Row.mk 2 .add], out.itemState r.item = .brought) ∧
      (out.rows.filter (fun r => r.action == .remove)).length =
        [Row.mk 1 .add, Row.mk 2 .add].length ∧
      (out.rows.filter (fun r => r.action == .removedLater)).length =
        [Row.mk 1 .add, Row.mk 2 .add].length ∧
      out.rows.length = 2 * [Row.mk 1 .add, Row.mk 2 .add].length ∧
      out.total = List.sum ([] : List Int) :=
  receipt_abort_spec ⟨.pending, [⟨1, .add⟩, ⟨2, .add⟩], [], fun _ => .staged,
    fun _ => 100⟩ rfl (by decide)

/-- The attachment invariant is preserved by every core-operation step. -/
theorem stepItem_attach_inv :
    ∀ (op : Op) (v v' : ItemView), AttachInv v → stepItem op v = some v' →
      AttachInv v' := by
  decide

/-- A step can only produce a SOLD item from a SOLD or STAGED one. -/
theorem stepItem_sold :
    ∀ (op : Op) (v v' : ItemView), AttachInv v → stepItem op v = some v' →
      v'.state = .sold → v.state = .sold ∨ v.state = .staged := by
  decide

/-- A step can only produce a COMPENSATED item from a COMPENSATED or SOLD
one. -/
theorem stepItem_comp :
    ∀ (op : Op) (v v' : ItemView), stepItem op v = some v' →
      v'.state = .compensated → v.state = .compensated ∨ v.state = .sold := by
  decide

/-- C1: for every item and every sequence of core operations, SOLD is
reachable only through STAGED and COMPENSATED only through SOLD: starting
from any state satisfying the attachment invariant, if a run ends SOLD
then either it started SOLD or some intermediate point of the run was
STAGED (reached by reserve, left by receipt-finish); if it ends
COMPENSATED then either it started COMPENSATED or some intermediate point
was SOLD.  No interleaving of the core operations produces SOLD or
COMPENSATED by any other path. -/
theorem sold_requires_staged (ops : List Op) (v0 vn : ItemView)
    (hInv : AttachInv v0) (hrun : runOps ops v0 = some vn) :
    (vn.state = .sold → v0.state = .sold ∨
      ∃ l1 l2 v, ops = l1 ++ l2 ∧ runOps l1 v0 = some v ∧ v.state = .staged) ∧
    (vn.state = .compensated → v0.state = .compensated ∨
      ∃ l1 l2 v, ops = l1 ++ l2 ∧ runOps l1 v0 = some v ∧ v.state = .sold) := by
  induction ops generalizing v0 with
  | nil =>
    rw [runOps] at hrun
    injection hrun with hrun
    subst hrun
    exact ⟨fun h => Or.inl h, fun h => Or.inl h⟩
  | cons op ops ih =>
    rw [runOps] at hrun
    cases hstep : stepItem op v0 with
    | none =>
      rw [hstep] at hrun
      exact absurd hrun (by simp)
    | some v1 =>
      rw [hstep] at hrun
      have hInv1 := stepItem_attach_inv op v0 v1 hInv hstep
      have IH := ih v1 hInv1 hrun
      constructor
      · intro hs
        rcases IH.1 hs with h1 | ⟨l1, l2, v, hsplit, hpre, hst⟩
        · rcases stepItem_sold op v0 v1 hInv hstep h1 with h0 | h0
          · exact Or.inl h0
          · exact Or.inr ⟨[], op :: ops, v0, rfl, rfl, h0⟩
        · refine Or.inr ⟨op :: l1, l2, v, by rw [hsplit, List.cons_append], ?_, hst⟩
          rw [runOps, hstep]
          exact hpre
      · intro hc
        rcases IH.2 hc with h1 | ⟨l1, l2, v, hsplit, hpre, hst⟩
        · rcases stepItem_comp op v0 v1 hstep h1 with h0 | h0
          · exact Or.inl h0
          · exact Or.inr ⟨[], op :: ops, v0, rfl, rfl, h0⟩
        · refine Or.inr ⟨op :: l1, l2, v, by rw [hsplit, List.cons_append], ?_, hst⟩
          rw [runOps, hstep]
          exact hpre

theorem sold_requires_staged_witness :
    ((ItemView.mk .sold none).state = .sold →
      (ItemView.mk .advertised none).state = .sold ∨
      ∃ l1 l2 v, [Op.reserve, Op.receiptFinish] = l1 ++ l2 ∧
        runOps l1 (ItemView.mk .advertised none) = some v ∧ v.state = .staged) ∧
    ((ItemView.mk .sold none).state = .compensated →
      (ItemView.mk .advertised none).state = .compensated ∨
      ∃ l1 l2 v, [Op.reserve, Op.receiptFinish] = l1 ++ l2 ∧
        runOps l1 (ItemView.mk .advertised none) = some v ∧ v.state = .sold) :=
  sold_requires_staged [Op.reserve, Op.receiptFinish] ⟨.advertised, none⟩
    ⟨.sold, none⟩ (by decide) rfl

end Kirppu
